import Mathlib

/-
Shallow embedding of the pyprocrustes repository (Curve.py, KDTree.py,
Procrustes.py) over the reals, together with theorems checking the
natural-language specification against the code.

Conventions used throughout:
* Python floats are modelled as real numbers; pow(x, 0.5) is Real.sqrt.
* A function that can raise a Python exception returns Except PyExn.
* A source loop or recursion whose termination is in question takes a fuel
  argument and returns none when the fuel runs out, so non-termination of the
  source is expressed as: the result is none for every fuel.
* The k-d tree, whose nodes carry parent back-references, is represented as a
  flat arena (a list of nodes addressed by index) with child and parent
  fields stored as indices.
-/

/-- Kinds of Python exception objects that appear in the embedded code. -/
inductive PyExn where
  | typeError
  | valueError
  | indexError
  | attributeError
deriving DecidableEq, Repr

/-- An ordinary Python return value: either a proper value or an exception
object returned (not raised) as a normal result, which the source does in
Curve.val_at_arclength and Procrustes.rotate. -/
inductive PyRet (α : Type) where
  | val (a : α)
  | errObj (e : PyExn)

/-- Python list indexing l[i]: a nonnegative index counts from the front and a
negative index counts from the back; an out-of-range index gives none
(an IndexError in the source). -/
def pyGet {α : Type} (l : List α) (i : Int) : Option α :=
  if 0 ≤ i then l[i.toNat]?
  else if -i ≤ (l.length : Int) then l[l.length - (-i).toNat]? else none

/-- The euclidean length helper defined identically in Curve.py (line 91),
KDTree.py (line 103) and Procrustes.py (line 128):
pow(sum(pow(a-b,2)),0.5), elementwise on the coordinate lists. -/
noncomputable def euc_length (a b : List ℝ) : ℝ :=
  Real.sqrt (List.sum (List.zipWith (fun x y => (x - y) ^ 2) a b))

/-- Cumulative (segment start, segment end) arclength pairs: given the start
of the next segment and the list of remaining segment lengths, produce the
list built by the loop in Curve.set_points (lines 92-95). -/
noncomputable def cumPairs (start : ℝ) : List ℝ → List (ℝ × ℝ)
  | [] => []
  | d :: ds => (start, start + d) :: cumPairs (start + d) ds

/-- The self.distances list computed by Curve.set_points: one
(start, end) pair of cumulative arclengths per consecutive point pair. -/
noncomputable def buildDistances (pts : List (List ℝ)) : List (ℝ × ℝ) :=
  cumPairs 0 (List.zipWith euc_length pts pts.tail)

/-- The second entry of numpy.array(rows).shape. For an empty list numpy
produces a one-axis array of shape (0,), and for ragged rows an object array
of shape (n,): in both cases shape[1] does not exist (IndexError), modelled
as none. For rectangular nonempty input it is the common row length. -/
def npShape1 (rows : List (List ℝ)) : Option Nat :=
  match rows with
  | [] => none
  | r :: rest => if rest.all (fun s => s.length = r.length) then some r.length else none

/-- The state stored by a constructed Curve object: the point rows, the
cumulative distance pairs, and the total arclength. -/
structure Curve where
  points : List (List ℝ)
  distances : List (ℝ × ℝ)
  arc_length : ℝ

/-- Curve.set_points (Curve.py lines 78-96). The validation check of the
source is the literal condition
not(points_ndarray.shape[1] == 3 or points_ndarray.shape[0] > 0), raising
TypeError; reading shape[1] of a one-axis array raises IndexError; and with
fewer than two points the initialisation of self.distances reads
self.points[1] and raises IndexError. self.arc_length is distances[-1][1]. -/
noncomputable def set_points (rows : List (List ℝ)) : Except PyExn Curve :=
  match npShape1 rows with
  | none => .error .indexError
  | some dim =>
    if ¬(dim = 3 ∨ rows.length > 0) then .error .typeError
    else if rows.length < 2 then .error .indexError
    else .ok { points := rows, distances := buildDistances rows,
               arc_length := ((buildDistances rows).getLastD (0, 0)).2 }

/-- The while loop of Curve.val_at_arclength (lines 41-50), with fuel.
The source unpacks top_dist, bottom_dist = self.distances[middle], so
top_dist is the first pair component (the segment start) and bottom_dist the
second (the segment end); middle is int((top_limit-bottom_limit)//2), a
Python floor division, and distances[middle] uses Python indexing (negative
values count from the back). When no branch of the if/elif chain fires the
loop repeats with an unchanged state. Returns the final top_limit, or none
if the loop has not finished within the given number of iterations. -/
noncomputable def valSearch (dists : List (ℝ × ℝ)) (t : ℝ) : Nat → Int → Int → Option Int
  | 0, top, bottom => if top = bottom then some top else none
  | fuel + 1, top, bottom =>
    if top = bottom then some top
    else
      let middle := (top - bottom).fdiv 2
      match pyGet dists middle with
      | none => none
      | some td =>
        if td.2 ≤ t ∧ t < td.1 then valSearch dists t fuel middle middle
        else if t < td.2 then valSearch dists t fuel middle bottom
        else if td.1 ≤ t then valSearch dists t fuel top (middle + 1)
        else valSearch dists t fuel top bottom

/-- Curve.val_at_arclength (lines 22-58). t == 0 returns the first point,
t == arc_length the last point, an out-of-range t RETURNS (does not raise) a
ValueError object, and otherwise the result interpolates between
points[top_limit] and points[top_limit+1] using
(b-a)/(dist_b-dist_a)*(t-dist_a) + a. none means the binary search loop has
not terminated within the fuel (or an index was out of range). -/
noncomputable def val_at_arclength (c : Curve) (t : ℝ) (fuel : Nat) : Option (PyRet (List ℝ)) :=
  if t = 0 then some (.val (c.points.getD 0 []))
  else if t = c.arc_length then some (.val (c.points.getD (c.points.length - 1) []))
  else if ¬(0 < t ∧ t < c.arc_length) then some (.errObj .valueError)
  else
    match valSearch c.distances t fuel ((c.distances.length : Int) - 1) 0 with
    | none => none
    | some top =>
      match pyGet c.points top, pyGet c.points (top + 1), pyGet c.distances top with
      | some a, some b, some dab =>
        some (.val (List.zipWith (fun x y => (y - x) / (dab.2 - dab.1) * (t - dab.1) + x) a b))
      | _, _, _ => none

/-- numpy.linspace(a, b, n): n evenly spaced samples from a to b inclusive. -/
noncomputable def linspace (a b : ℝ) : Nat → List ℝ
  | 0 => []
  | 1 => [a]
  | n + 2 => (List.range (n + 2)).map (fun i : Nat => a + (i : ℝ) * (b - a) / ((n : ℝ) + 1))

/-- Evaluate f on every element, failing if any evaluation fails: the list
comprehension of Curve.gen_num_points run under the fuel discipline. -/
def mapOption {α β : Type} (f : α → Option β) : List α → Option (List β)
  | [] => some []
  | a :: as =>
    match f a, mapOption f as with
    | some b, some bs => some (b :: bs)
    | _, _ => none

/-- Curve.gen_num_points (lines 60-76) with loose_detail left at its default
False: raises ValueError when total is smaller than the current number of
points, and otherwise evaluates val_at_arclength at numpy.linspace(0,
arc_length, total). The outer none reports that some val_at_arclength call
did not terminate within the fuel. -/
noncomputable def gen_num_points (c : Curve) (total : Nat) (fuel : Nat) :
    Option (Except PyExn (List (PyRet (List ℝ)))) :=
  if total < c.points.length then some (.error .valueError)
  else
    match mapOption (fun t => val_at_arclength c t fuel) (linspace 0 c.arc_length total) with
    | none => none
    | some rows => some (.ok rows)

/-- Procrustes.min_distance (lines 118-132). It constructs
Curve(ref_curve) and then evaluates ref_curve_c.find_nearest_point(point)
for each point of curve; the class Curve defines no attribute named
find_nearest_point anywhere in the repository, so the first element demanded
from the generator raises AttributeError. An empty curve yields an empty
tuple because the generator is never advanced. -/
noncomputable def min_distance (ref_curve curve : List (List ℝ)) : Except PyExn (List ℝ) :=
  match set_points ref_curve with
  | .error e => .error e
  | .ok _ =>
    match curve with
    | [] => .ok []
    | _ :: _ => .error .attributeError

/-- Sum of squares of one row. -/
noncomputable def sumSq (row : List ℝ) : ℝ := (row.map (fun x => x ^ 2)).sum

/-- Procrustes.rmsd (lines 37-45): pow(sum(sum(pow(curve,2)))/shape[0], 0.5). -/
noncomputable def rmsd (curve : List (List ℝ)) : ℝ :=
  Real.sqrt ((curve.map sumSq).sum / (curve.length : ℝ))

/-- The array computed by Procrustes.scale (line 56): curve / rmsd(curve),
elementwise. numpy division by a zero rmsd emits non-finite values with a
runtime warning; it raises nothing. -/
noncomputable def scale_points (curve : List (List ℝ)) : List (List ℝ) :=
  curve.map (fun row => row.map (fun x => x / rmsd curve))

/-- Procrustes.scale (lines 48-56): an unconditional return of
curve / rmsd(curve). There is no validation and no failure path, so the
result is always an ordinary value. -/
noncomputable def scale (curve : List (List ℝ)) : Except PyExn (List (List ℝ)) :=
  .ok (scale_points curve)

/-- The sign lambda of Procrustes.rotate (line 80):
1 if x > 0 else 0 if x == 0 else -1. Note that it maps 0 to 0. -/
noncomputable def pySign (x : ℝ) : ℝ := if x > 0 then 1 else if x = 0 then 0 else -1

/-- The rotation matrix of Procrustes.rotate (lines 77-85), parameterised by
the factors that numpy.linalg.svd returns for the covariance matrix: v (the
left factor, written u here) and w (the transposed right factor, written vt).
With v_t = uᵀ and w_t = vtᵀ the source computes d = sign(det(w_t · v_t)) and
w_t · [[1,0,0],[0,1,0],[0,0,d]] · v_t. -/
noncomputable def rotation_matrix (u vt : Matrix (Fin 3) (Fin 3) ℝ) : Matrix (Fin 3) (Fin 3) ℝ :=
  vt.transpose * !![1, 0, 0; 0, 1, 0; 0, 0, pySign ((vt.transpose * u.transpose).det)] *
    u.transpose

/-- rotation_matrix.dot(point) for a point stored as a row list. -/
noncomputable def applyMat (m : Matrix (Fin 3) (Fin 3) ℝ) (p : List ℝ) : List ℝ :=
  List.ofFn (fun i : Fin 3 => ∑ j : Fin 3, m i j * p.getD (j : Nat) 0)

/-- Procrustes.rotate (lines 60-88), parameterised by the svd factors of the
covariance matrix. When the two curves have different point counts the
source RETURNS (does not raise) a TypeError object; otherwise it applies the
rotation matrix to every point of curve. -/
noncomputable def rotate (ref_curve curve : List (List ℝ)) (u vt : Matrix (Fin 3) (Fin 3) ℝ) :
    PyRet (List (List ℝ)) :=
  if ref_curve.length ≠ curve.length then .errObj .typeError
  else .val (curve.map (applyMat (rotation_matrix u vt)))

/-- The point-count equalisation stage of Procrustes.superposition (lines
105-111): if ref_curve has strictly more points, curve is resampled to
ref_curve's count; OTHERWISE (including equal counts) ref_curve is resampled
to curve's count. The untouched side is injected into the common return type
with PyRet.val. none reports a non-terminating resample. -/
noncomputable def superposition_resample (ref_curve curve : List (List ℝ)) (fuel : Nat) :
    Option (Except PyExn (List (PyRet (List ℝ)) × List (PyRet (List ℝ)))) :=
  if curve.length < ref_curve.length then
    match set_points curve with
    | .error e => some (.error e)
    | .ok c =>
      match gen_num_points c ref_curve.length fuel with
      | none => none
      | some (.error e) => some (.error e)
      | some (.ok rows) => some (.ok (ref_curve.map .val, rows))
  else
    match set_points ref_curve with
    | .error e => some (.error e)
    | .ok c =>
      match gen_num_points c curve.length fuel with
      | none => none
      | some (.error e) => some (.error e)
      | some (.ok rows) => some (.ok (rows, curve.map .val))

/-- One node of the k-d tree arena: the stored point, the split axis, and
child and parent links stored as arena indices. -/
structure KDNodeA where
  datum : List ℝ
  axis : Nat
  left : Option Nat
  right : Option Nat
  parent : Option Nat

/-- The k-d tree: a flat arena of nodes plus the root index. -/
structure KDTree where
  nodes : List KDNodeA
  root : Option Nat

/-- points_left.sort(key=lambda point: point[axis]): a stable ascending sort
by the given coordinate; any stable sort computes the same list as Python's
Timsort, and insertion sort is stable. -/
noncomputable def sortByCoord (ax : Nat) (pts : List (List ℝ)) : List (List ℝ) :=
  List.insertionSort (fun a b => a.getD ax 0 ≤ b.getD ax 0) pts

/-- The recursive kdtree helper of KDTree.__init__ (lines 43-72), laying the
nodes out in preorder: the node built from the median of the sorted points
sits at index start, its left subtree (the points below the median) starts
at start+1, and its right subtree at start+1+median. The parent field is
filled in for the children exactly as the source does after construction. -/
noncomputable def buildArena (pts : List (List ℝ)) (axis start : Nat) (parent : Option Nat) :
    List KDNodeA :=
  match pts with
  | [] => []
  | p :: rest =>
    let ax := axis % p.length
    let sorted := sortByCoord ax (p :: rest)
    let m := (p :: rest).length / 2
    let leftPts := sorted.take m
    let rightPts := sorted.drop (m + 1)
    { datum := sorted.getD m [], axis := ax,
      left := if leftPts.length = 0 then none else some (start + 1),
      right := if rightPts.length = 0 then none else some (start + 1 + m),
      parent := parent } ::
      (buildArena leftPts (ax + 1) (start + 1) (some start) ++
        buildArena rightPts (ax + 1) (start + 1 + m) (some start))
termination_by pts.length
decreasing_by
  all_goals
    simp only [sortByCoord, List.length_take, List.length_drop, List.length_insertionSort,
      List.length_cons]
    omega

/-- KDTree.__init__ (lines 37-74): build the arena; an empty point list
yields a tree with no root. -/
noncomputable def KDTree.init (pts : List (List ℝ)) : KDTree :=
  { nodes := buildArena pts 0 0 none,
    root := match pts with | [] => none | _ :: _ => some 0 }

/-- KDTree.traverse_down (lines 75-93) on the arena, with fuel: descend from
node i to the leaf the query point would reach, going left when
p[axis] <= datum[axis]. -/
noncomputable def traverse_down (t : KDTree) (p : List ℝ) : Nat → Nat → Option Nat
  | _, 0 => none
  | i, fuel + 1 =>
    match t.nodes[i]? with
    | none => none
    | some n =>
      match n.left, n.right with
      | none, none => some i
      | _, _ =>
        if p.getD n.axis 0 ≤ n.datum.getD n.axis 0 then
          match n.left with
          | some l => traverse_down t p l fuel
          | none => some i
        else
          match n.right with
          | some r => traverse_down t p r fuel
          | none => some i

/-- The comparison d < lowest_dist where lowest_dist starts as float(inf),
modelled by none. -/
noncomputable def ltInf (d : ℝ) : Option ℝ → Bool
  | none => true
  | some x => decide (d < x)

/-- One arm of the for child in (node.left, node.right) loop at the bottom of
KDTree.nearest_neighbour (lines 128-132): when the child exists, has not
been visited, and its splitting-plane distance beats lowest_dist, the
current node jumps to traverse_down(point, child); otherwise the current
node is unchanged. -/
noncomputable def examineChild (t : KDTree) (q : List ℝ) (visited : List Nat)
    (lowest : Option ℝ) (node : Nat) (child : Option Nat) : Option Nat :=
  match child with
  | none => some node
  | some c =>
    if c ∈ visited then some node
    else
      match t.nodes[c]? with
      | none => none
      | some cn =>
        if ltInf |cn.datum.getD cn.axis 0 - q.getD cn.axis 0| lowest then
          traverse_down t q c (t.nodes.length + 1)
        else some node

/-- The while(node.parent) loop of KDTree.nearest_neighbour (lines 110-133),
with fuel: add the node to visited, update the best candidate with the node
and then with its parent, move to the parent, then examine the parent's two
children in order. Returns the closest_node found when the loop reaches a
node with no parent. -/
noncomputable def searchLoop (t : KDTree) (q : List ℝ) :
    Nat → Nat → List Nat → Option ℝ → Option Nat → Option (Option Nat)
  | 0, _, _, _, _ => none
  | fuel + 1, node, visited, lowest, closest =>
    match t.nodes[node]? with
    | none => none
    | some n =>
      match n.parent with
      | none => some closest
      | some par =>
        let visited1 := node :: visited
        let d1 := euc_length n.datum q
        let low1 := if ltInf d1 lowest then some d1 else lowest
        let clo1 := if ltInf d1 lowest then some node else closest
        match t.nodes[par]? with
        | none => none
        | some pn =>
          let d2 := euc_length pn.datum q
          let low2 := if ltInf d2 low1 then some d2 else low1
          let clo2 := if ltInf d2 low1 then some par else clo1
          match examineChild t q visited1 low2 par pn.left with
          | none => none
          | some nodeA =>
            match examineChild t q visited1 low2 nodeA pn.right with
            | none => none
            | some nodeB => searchLoop t q fuel nodeB visited1 low2 clo2

/-- KDTree.nearest_neighbour (lines 95-133): descend to a leaf with
traverse_down, then run the upward search loop starting with lowest_dist =
float(inf) and closest_node = None. The result some none is the source
returning None; the outer none covers fuel exhaustion and the
AttributeError raised on an empty tree. -/
noncomputable def nearest_neighbour (t : KDTree) (point : List ℝ) (fuel : Nat) :
    Option (Option Nat) :=
  match t.root with
  | none => none
  | some r =>
    match traverse_down t point r (t.nodes.length + 1) with
    | none => none
    | some start => searchLoop t point fuel start [] none none

/-- Modelled from the spec: a brute-force linear scan returning a point of
the set at minimum euclidean distance from the query, the comparator the
spec requires nearestNeighbor to agree with. -/
noncomputable def bruteForceNearest (pts : List (List ℝ)) (q : List ℝ) : Option (List ℝ) :=
  pts.foldl (fun best p =>
    match best with
    | none => some p
    | some b => if euc_length p q < euc_length b q then some p else some b) none

/-- The two-point curve built from [[0,0,0],[1,0,0]]: one segment of length
1, so distances = [(0,1)] and arc_length = 1. -/
noncomputable def c2 : Curve := ⟨[[0,0,0],[1,0,0]], [(0,1)], 1⟩

/-- Five collinear points spaced one unit apart. -/
def pts5 : List (List ℝ) := [[0,0,0],[1,0,0],[2,0,0],[3,0,0],[4,0,0]]

/-- The distances list of the five-point curve: four unit segments. -/
def d5 : List (ℝ × ℝ) := [(0,1),(1,2),(2,3),(3,4)]

/-- The curve the source constructs from pts5 (see set_points_five below). -/
noncomputable def c5 : Curve := ⟨pts5, d5, 4⟩

/-- A three-point reference with unevenly spaced points: segments of length
1 and 2. -/
def ref0 : List (List ℝ) := [[0,0,0],[1,0,0],[3,0,0]]

/-- A three-point sample curve with the same point count as ref0. -/
def curve0 : List (List ℝ) := [[0,0,0],[1,0,0],[2,0,0]]

/-- The curve the source constructs from ref0 (see set_points_ref0 below). -/
noncomputable def cRef : Curve := ⟨ref0, [(0,1),(1,3)], 3⟩

/-- A two-point reference, to be upsampled by superposition. -/
def refW : List (List ℝ) := [[0,0,0],[2,0,0]]

/-- A three-point sample curve with more points than refW. -/
def curveW : List (List ℝ) := [[0,0,0],[1,0,0],[3,0,0]]

/-- The curve the source constructs from refW (see set_points_refW below). -/
noncomputable def cW : Curve := ⟨refW, [(0,2)], 2⟩

/-- A segment along the x axis has euclidean length equal to the coordinate
difference. -/
theorem euc_row (x y d : ℝ) (hd : 0 ≤ d) (h : (x - y) ^ 2 = d ^ 2) :
    euc_length [x, 0, 0] [y, 0, 0] = d := by
  simp [euc_length, h, Real.sqrt_sq hd]

/-- The distances list of the five collinear unit-spaced points. -/
theorem buildDistances_pts5 : buildDistances pts5 = d5 := by
  have h1 : euc_length [0,0,0] [1,0,0] = 1 := euc_row 0 1 1 (by norm_num) (by norm_num)
  have h2 : euc_length [1,0,0] [2,0,0] = 1 := euc_row 1 2 1 (by norm_num) (by norm_num)
  have h3 : euc_length [2,0,0] [3,0,0] = 1 := euc_row 2 3 1 (by norm_num) (by norm_num)
  have h4 : euc_length [3,0,0] [4,0,0] = 1 := euc_row 3 4 1 (by norm_num) (by norm_num)
  simp only [pts5, d5, buildDistances, List.tail_cons, List.zipWith_cons_cons,
    List.zipWith_nil_right, cumPairs]
  rw [h1, h2, h3, h4]
  norm_num [cumPairs]

/-- Constructing a Curve from pts5 succeeds and stores exactly c5. -/
theorem set_points_five : set_points pts5 = .ok c5 := by
  rw [set_points, show npShape1 pts5 = some 3 from rfl]
  norm_num [show pts5.length = 5 from rfl, buildDistances_pts5, c5, d5, List.getLastD]

/-- On the five-point curve with t = 7/2 the loop state oscillates between
(top, bottom) = (3, 2) and (3, 1) forever. -/
theorem valSearch_cycle_35 (fuel : Nat) :
    valSearch d5 (7/2) fuel 3 2 = none ∧ valSearch d5 (7/2) fuel 3 1 = none := by
  induction fuel with
  | zero => constructor <;> simp [valSearch]
  | succ n ih =>
    constructor
    · rw [valSearch]
      norm_num [pyGet, d5, Int.fdiv]
      exact ih.2
    · rw [valSearch]
      norm_num [pyGet, d5, Int.fdiv]
      exact ih.1

/-- On the five-point curve with t = 5/2 the loop state oscillates between
(top, bottom) = (3, 2) and (3, 1) forever. -/
theorem valSearch_cycle_25 (fuel : Nat) :
    valSearch d5 (5/2) fuel 3 2 = none ∧ valSearch d5 (5/2) fuel 3 1 = none := by
  induction fuel with
  | zero => constructor <;> simp [valSearch]
  | succ n ih =>
    constructor
    · rw [valSearch]
      norm_num [pyGet, d5, Int.fdiv]
      exact ih.2
    · rw [valSearch]
      norm_num [pyGet, d5, Int.fdiv]
      exact ih.1

/-- From the initial loop state the t = 7/2 search enters the cycle. -/
theorem valSearch_35_top (fuel : Nat) : valSearch d5 (7/2) fuel 3 0 = none := by
  cases fuel with
  | zero => simp [valSearch]
  | succ n =>
    rw [valSearch]
    norm_num [pyGet, d5, Int.fdiv]
    exact (valSearch_cycle_35 n).1

/-- Constructing a Curve from [[0,0,0],[1,0,0]] succeeds and stores c2. -/
theorem set_points_c2 : set_points [[0,0,0],[1,0,0]] = .ok c2 := by
  have h1 : euc_length [0,0,0] [1,0,0] = 1 := euc_row 0 1 1 (by norm_num) (by norm_num)
  have hbd : buildDistances [[0,0,0],[1,0,0]] = [(0,1)] := by
    simp only [buildDistances, List.tail_cons, List.zipWith_cons_cons,
      List.zipWith_nil_right, cumPairs]
    rw [h1]
    norm_num [cumPairs]
  rw [set_points, show npShape1 [[0,0,0],[1,0,0]] = some 3 from rfl]
  norm_num [hbd, c2, List.getLastD]

/-- The distances list of ref0: segments of length 1 and 2. -/
theorem buildDistances_ref0 : buildDistances ref0 = [(0,1),(1,3)] := by
  have h1 : euc_length [0,0,0] [1,0,0] = 1 := euc_row 0 1 1 (by norm_num) (by norm_num)
  have h2 : euc_length [1,0,0] [3,0,0] = 2 := euc_row 1 3 2 (by norm_num) (by norm_num)
  simp only [ref0, buildDistances, List.tail_cons, List.zipWith_cons_cons,
    List.zipWith_nil_right, cumPairs]
  rw [h1, h2]
  norm_num [cumPairs]

/-- Constructing a Curve from ref0 succeeds and stores cRef. -/
theorem set_points_ref0 : set_points ref0 = .ok cRef := by
  rw [set_points, show npShape1 ref0 = some 3 from rfl]
  norm_num [show ref0.length = 3 from rfl, buildDistances_ref0, cRef, List.getLastD]

/-- The segment search on cRef at t = 3/2 terminates with segment 1. -/
theorem vs_ref0 : valSearch [(0,1),(1,3)] ((3:ℝ)/2) 5 1 0 = some 1 := by
  rw [valSearch]
  norm_num [pyGet, Int.fdiv]
  rw [valSearch]
  norm_num

/-- Resampling value of cRef at arclength 3/2: the midpoint (3/2, 0, 0). -/
theorem val_ref0_mid : val_at_arclength cRef (3/2) 5 = some (.val [3/2, 0, 0]) := by
  rw [val_at_arclength]
  rw [if_neg (by norm_num), if_neg (by norm_num [cRef]), if_neg (by norm_num [cRef])]
  rw [show cRef.distances = [(0,1),(1,3)] from rfl]
  norm_num
  rw [vs_ref0]
  norm_num [pyGet, cRef, ref0, show ((1:Int)).toNat = 1 from rfl,
    show ((2:Int)).toNat = 2 from rfl, List.getElem_cons_succ, List.getElem_cons_zero]

/-- Resampling value of cRef at arclength 0: the first point. -/
theorem val_ref0_zero : val_at_arclength cRef 0 5 = some (.val [0, 0, 0]) := by
  rw [val_at_arclength, if_pos rfl]
  norm_num [cRef, ref0]

/-- Resampling value of cRef at arclength 3: the last point. -/
theorem val_ref0_end : val_at_arclength cRef 3 5 = some (.val [3, 0, 0]) := by
  rw [val_at_arclength]
  rw [if_neg (by norm_num), if_pos (show (3:ℝ) = cRef.arc_length from rfl)]
  norm_num [cRef, ref0]

/-- Resampling cRef to its own point count changes its middle point. -/
theorem gen_ref0 : gen_num_points cRef 3 5
    = some (.ok [.val [0,0,0], .val [3/2,0,0], .val [3,0,0]]) := by
  rw [gen_num_points, if_neg (by norm_num [cRef, ref0])]
  rw [show linspace 0 cRef.arc_length 3 = [0, 3/2, 3] from by
    norm_num [cRef, linspace, show List.range 3 = [0, 1, 2] from rfl]]
  rw [show mapOption (fun t => val_at_arclength cRef t 5) [0, 3/2, 3]
      = some [.val [0,0,0], .val [3/2,0,0], .val [3,0,0]] from by
    rw [mapOption, val_ref0_zero, mapOption, val_ref0_mid, mapOption, val_ref0_end, mapOption]]

/-- The distances list of refW: one segment of length 2. -/
theorem buildDistances_refW : buildDistances refW = [(0,2)] := by
  have h1 : euc_length [0,0,0] [2,0,0] = 2 := euc_row 0 2 2 (by norm_num) (by norm_num)
  simp only [refW, buildDistances, List.tail_cons, List.zipWith_cons_cons,
    List.zipWith_nil_right, cumPairs]
  rw [h1]
  norm_num [cumPairs]

/-- Constructing a Curve from refW succeeds and stores cW. -/
theorem set_points_refW : set_points refW = .ok cW := by
  rw [set_points, show npShape1 refW = some 3 from rfl]
  norm_num [show refW.length = 2 from rfl, buildDistances_refW, cW, List.getLastD]

/-- Resampling value of cW at arclength 0: the first point. -/
theorem val_refW_zero : val_at_arclength cW 0 5 = some (.val [0, 0, 0]) := by
  rw [val_at_arclength, if_pos rfl]
  norm_num [cW, refW]

/-- The segment search on cW at t = 1 terminates immediately. -/
theorem vs_refW : valSearch [(0,2)] ((1:ℝ)) 5 0 0 = some 0 := by
  rw [valSearch]
  norm_num

/-- Resampling value of cW at arclength 1: the midpoint (1, 0, 0). -/
theorem val_refW_mid : val_at_arclength cW 1 5 = some (.val [1, 0, 0]) := by
  rw [val_at_arclength]
  rw [if_neg (by norm_num), if_neg (by norm_num [cW]), if_neg (by norm_num [cW])]
  rw [show cW.distances = [(0,2)] from rfl]
  norm_num
  rw [vs_refW]
  norm_num [pyGet, cW, refW, show ((0:Int)).toNat = 0 from rfl,
    show ((1:Int)).toNat = 1 from rfl, List.getElem_cons_succ, List.getElem_cons_zero]

/-- Resampling value of cW at arclength 2: the last point. -/
theorem val_refW_end : val_at_arclength cW 2 5 = some (.val [2, 0, 0]) := by
  rw [val_at_arclength]
  rw [if_neg (by norm_num), if_pos (show (2:ℝ) = cW.arc_length from rfl)]
  norm_num [cW, refW]

/-- Upsampling cW to three points gives three evenly spaced points. -/
theorem gen_refW : gen_num_points cW 3 5
    = some (.ok [.val [0,0,0], .val [1,0,0], .val [2,0,0]]) := by
  rw [gen_num_points, if_neg (by norm_num [cW, refW])]
  rw [show linspace 0 cW.arc_length 3 = [0, 1, 2] from by
    norm_num [cW, linspace, show List.range 3 = [0, 1, 2] from rfl]]
  rw [show mapOption (fun t => val_at_arclength cW t 5) [0, 1, 2]
      = some [.val [0,0,0], .val [1,0,0], .val [2,0,0]] from by
    rw [mapOption, val_refW_zero, mapOption, val_refW_mid, mapOption, val_refW_end, mapOption]]

/-- Full evaluation of the resampling stage on the differing-count pair:
refW (the smaller) is upsampled, curveW is untouched. -/
theorem superpos_refW :
    superposition_resample refW curveW 5
      = some (.ok ([.val [0,0,0], .val [1,0,0], .val [2,0,0]], curveW.map PyRet.val)) := by
  rw [superposition_resample, if_neg (by norm_num [refW, curveW])]
  simp only [set_points_refW, show curveW.length = 3 from rfl, gen_refW]

/-- linspace produces exactly the requested number of samples. -/
theorem linspace_length (a b : ℝ) (n : Nat) : (linspace a b n).length = n := by
  match n with
  | 0 => simp [linspace]
  | 1 => simp [linspace]
  | m + 2 => rw [linspace, List.length_map, List.length_range]

/-- mapOption preserves the list length when it succeeds. -/
theorem mapOption_length {α β : Type} (f : α → Option β) (l : List α) (l2 : List β)
    (h : mapOption f l = some l2) : l2.length = l.length := by
  induction l generalizing l2 with
  | nil =>
    rw [mapOption] at h
    cases h
    rfl
  | cons a as ih =>
    rw [mapOption] at h
    cases hfa : f a with
    | none => rw [hfa] at h; exact absurd h (by simp)
    | some b =>
      rw [hfa] at h
      cases hrest : mapOption f as with
      | none => rw [hrest] at h; exact absurd h (by simp)
      | some bs =>
        rw [hrest] at h
        cases h
        simp [ih bs hrest]

/-- A successful resample returns exactly the requested number of points. -/
theorem gen_num_points_length (c : Curve) (total fuel : Nat) (rows : List (PyRet (List ℝ)))
    (h : gen_num_points c total fuel = some (.ok rows)) : rows.length = total := by
  rw [gen_num_points] at h
  by_cases hlt : total < c.points.length
  · rw [if_pos hlt] at h
    exact absurd h (by simp)
  · rw [if_neg hlt] at h
    cases hm : mapOption (fun t => val_at_arclength c t fuel) (linspace 0 c.arc_length total) with
    | none => rw [hm] at h; exact absurd h (by simp)
    | some rows2 =>
      rw [hm] at h
      cases h
      rw [mapOption_length _ _ _ hm, linspace_length]

/-- Dividing every element before summing is dividing the sum. -/
theorem sum_div_aux (l : List ℝ) (a : ℝ) : (l.map (fun x => x / a)).sum = l.sum / a := by
  induction l with
  | nil => simp
  | cons x xs ih => simp [ih, add_div]

/-- A sum of squares is nonnegative. -/
theorem sumSq_nonneg (row : List ℝ) : 0 ≤ sumSq row := by
  refine List.sum_nonneg ?_
  intro x hx
  obtain ⟨y, _, rfl⟩ := List.mem_map.mp hx
  positivity

/-- Scaling a row by 1/a divides its sum of squares by a squared. -/
theorem sumSq_div (row : List ℝ) (a : ℝ) :
    sumSq (row.map (fun x => x / a)) = sumSq row / a ^ 2 := by
  induction row with
  | nil => simp [sumSq]
  | cons x xs ih =>
    rw [List.map_cons, sumSq, List.map_cons, List.sum_cons]
    rw [show ((xs.map fun y => y / a).map fun y => y ^ 2).sum
        = sumSq (xs.map fun y => y / a) from rfl]
    rw [ih]
    rw [show sumSq (x :: xs) = x ^ 2 + (xs.map fun y => y ^ 2).sum from by
      rw [sumSq, List.map_cons, List.sum_cons]]
    rw [show sumSq xs = (xs.map fun y => y ^ 2).sum from rfl, add_div, div_pow]

/-- C1: the spec claims nearest_neighbour agrees with a brute-force linear
scan over every nonempty point set. Evaluating the code at the failing input
of a tree built from the single point (0,0,0) and the query (1,1,1): the
search returns no node at all (the upward loop body runs only while the
current node has a parent, and the lone root has none, so closest_node stays
None), while the brute-force scan returns the stored point. -/
theorem nearest_neighbour_single_point_vs_bruteforce :
    nearest_neighbour (KDTree.init [[0,0,0]]) [1,1,1] 9 = some none ∧
    bruteForceNearest [[0,0,0]] [1,1,1] = some [0,0,0] := by
  constructor
  · show nearest_neighbour (KDTree.init [[0,0,0]]) [1,1,1] (8 + 1) = some none
    simp [KDTree.init, buildArena, sortByCoord, nearest_neighbour, traverse_down, searchLoop,
      List.insertionSort]
  · rfl

/-- C2: the spec claims min_distance returns one distance per sample point.
Evaluating the code at the failing input ref = [[0,0,0],[1,1,1]],
curve = [[0,0,0]]: the call raises AttributeError because Curve defines no
find_nearest_point method, so no distances are ever produced. -/
theorem min_distance_attribute_error :
    min_distance [[0,0,0],[1,1,1]] [[0,0,0]] = .error .attributeError := rfl

/-- C3: the spec claims val_at_arclength locates the containing segment and
interpolates, for every valid curve and interior arclength. Evaluating the
code at the failing input of the five-point collinear curve (which the
source constructs as c5) and t = 7/2: the binary search loop never
terminates, because middle is computed as (top_limit-bottom_limit)//2
instead of a midpoint, so no value is ever returned. -/
theorem val_at_arclength_five_points_diverges :
    set_points pts5 = .ok c5 ∧ ∀ fuel : Nat, val_at_arclength c5 (7/2) fuel = none := by
  refine ⟨set_points_five, fun fuel => ?_⟩
  rw [val_at_arclength]
  rw [if_neg (by norm_num), if_neg (by norm_num [c5]), if_neg (by norm_num [c5])]
  rw [show c5.distances = d5 from rfl, show ((d5.length : Int) - 1) = 3 from by norm_num [d5]]
  rw [valSearch_35_top fuel]

/-- C4: the spec claims the segment-search loop terminates for every valid
curve and interior arclength. On the five-point curve c5 with t = 5/2 the
loop starting from its initial bounds (top, bottom) = (len(distances)-1, 0)
runs forever: after one step it oscillates between the states (3, 2) and
(3, 1), so the bounds never meet for any number of iterations. -/
theorem valSearch_five_points_loop_diverges :
    set_points pts5 = .ok c5 ∧
    ∀ fuel : Nat,
      valSearch c5.distances (5/2) fuel ((c5.distances.length : Int) - 1) 0 = none := by
  refine ⟨set_points_five, fun fuel => ?_⟩
  rw [show c5.distances = d5 from rfl, show ((d5.length : Int) - 1) = 3 from by norm_num [d5]]
  cases fuel with
  | zero => simp [valSearch]
  | succ n =>
    rw [valSearch]
    norm_num [pyGet, d5, Int.fdiv]
    exact (valSearch_cycle_25 n).1

/-- C5 counterexample: the claim says a validation failure is never returned
as an ordinary result. On the curve c2 (constructed by the source from
[[0,0,0],[1,0,0]]) the out-of-range query t = -1 RETURNS a ValueError object
as its ordinary result (the some constructor marks a normal return in this
embedding; the function has no raising path for this branch). -/
theorem val_at_arclength_returns_error_object :
    set_points [[0,0,0],[1,0,0]] = .ok c2 ∧
    val_at_arclength c2 (-1) 1 = some (.errObj .valueError) := by
  refine ⟨set_points_c2, ?_⟩
  norm_num [val_at_arclength, c2]

/-- C5 amended: set_points and gen_num_points raise typed errors, but
val_at_arclength with an out-of-range arclength and rotate with mismatched
point counts RETURN the corresponding exception object (ValueError resp.
TypeError) as an ordinary value instead of raising it. -/
theorem errors_returned_as_values (c : Curve) (t : ℝ) (fuel : Nat)
    (ref curve : List (List ℝ)) (u vt : Matrix (Fin 3) (Fin 3) ℝ) :
    (t ≠ 0 → t ≠ c.arc_length → ¬(0 < t ∧ t < c.arc_length) →
      val_at_arclength c t fuel = some (.errObj .valueError)) ∧
    (ref.length ≠ curve.length → rotate ref curve u vt = .errObj .typeError) := by
  constructor
  · intro h0 hL hR
    rw [val_at_arclength, if_neg h0, if_neg hL, if_pos hR]
  · intro hne
    rw [rotate, if_pos hne]

/-- Witness for errors_returned_as_values at t = -2 on c2 and at curves of
lengths 1 and 0 with identity svd factors. -/
theorem errors_returned_as_values_witness :
    val_at_arclength c2 (-2) 1 = some (.errObj .valueError) ∧
    rotate [[0,0,0]] ([] : List (List ℝ)) 1 1 = .errObj .typeError := by
  constructor
  · exact (errors_returned_as_values c2 (-2) 1 [] [] 1 1).1
      (by norm_num) (by norm_num [c2]) (by norm_num [c2])
  · exact (errors_returned_as_values c2 (-2) 1 [[0,0,0]] [] 1 1).2 (by norm_num)

/-- C6 counterexample: the claim says the code uses d = 1 when the
determinant is exactly zero; the sign lambda of the source actually maps 0
to 0, not 1. -/
theorem pySign_zero_eq_zero : pySign 0 = 0 ∧ pySign 0 ≠ 1 := by
  norm_num [pySign]

/-- C6 amended: rotate computes d = sign(det(V Uᵀ)) with sign(0) = 0 rather
than 1; for the orthogonal factors that an svd produces this determinant is
plus or minus one and never zero, and the resulting rotation matrix
R = V diag(1,1,d) Uᵀ is orthogonal and proper. -/
theorem rotation_matrix_orthogonal_proper (u vt : Matrix (Fin 3) (Fin 3) ℝ)
    (hu : u.transpose * u = 1) (hv : vt.transpose * vt = 1) :
    rotation_matrix u vt * (rotation_matrix u vt).transpose = 1 ∧
    (rotation_matrix u vt).det = 1 := by
  set s := (vt.transpose * u.transpose).det with hs_def
  have hdetu : u.det = 1 ∨ u.det = -1 := by
    have h := congrArg Matrix.det hu
    rw [Matrix.det_mul, Matrix.det_transpose, Matrix.det_one] at h
    exact mul_self_eq_one_iff.mp h
  have hdetv : vt.det = 1 ∨ vt.det = -1 := by
    have h := congrArg Matrix.det hv
    rw [Matrix.det_mul, Matrix.det_transpose, Matrix.det_one] at h
    exact mul_self_eq_one_iff.mp h
  have hs : s = vt.det * u.det := by
    rw [hs_def, Matrix.det_mul, Matrix.det_transpose, Matrix.det_transpose]
  have hs1 : s = 1 ∨ s = -1 := by
    rcases hdetu with h1 | h1 <;> rcases hdetv with h2 | h2 <;>
      rw [hs, h1, h2] <;> norm_num
  have hsign : pySign s = s := by
    rcases hs1 with h | h <;> rw [h] <;> norm_num [pySign]
  have hss : s * s = 1 := by
    rcases hs1 with h | h <;> rw [h] <;> norm_num
  have hD : (!![1, 0, 0; 0, 1, 0; 0, 0, pySign s] : Matrix (Fin 3) (Fin 3) ℝ)
      = Matrix.diagonal ![1, 1, s] := by
    rw [hsign]
    ext i j
    fin_cases i <;> fin_cases j <;>
      simp [Matrix.diagonal, Matrix.vecHead, Matrix.vecTail]
  have hDD : Matrix.diagonal (![1, 1, s] : Fin 3 → ℝ)
      * (Matrix.diagonal ![1, 1, s]).transpose = 1 := by
    rw [Matrix.diagonal_transpose, Matrix.diagonal_mul_diagonal]
    rw [show (fun i => (![1, 1, s] : Fin 3 → ℝ) i * ![1, 1, s] i) = fun _ => 1 from by
      funext i; fin_cases i <;> simp [hss]]
    exact Matrix.diagonal_one
  constructor
  · rw [rotation_matrix, ← hs_def, hD]
    simp only [Matrix.transpose_mul, Matrix.transpose_transpose]
    rw [Matrix.mul_assoc (vt.transpose * Matrix.diagonal ![1, 1, s]) u.transpose]
    rw [← Matrix.mul_assoc u.transpose u]
    rw [hu, one_mul]
    rw [Matrix.mul_assoc vt.transpose]
    rw [← Matrix.mul_assoc (Matrix.diagonal ![1, 1, s])]
    rw [hDD, one_mul, hv]
  · rw [rotation_matrix, ← hs_def, hD]
    rw [Matrix.det_mul, Matrix.det_mul, Matrix.det_transpose, Matrix.det_transpose]
    rw [Matrix.det_diagonal, Fin.prod_univ_three]
    rw [show (![1, 1, s] : Fin 3 → ℝ) 0 * ![1, 1, s] 1 * ![1, 1, s] 2 = s from by simp]
    rw [show vt.det * s * u.det = s * s from by rw [hs]; ring, hss]

/-- Witness for rotation_matrix_orthogonal_proper at the identity factors. -/
theorem rotation_matrix_orthogonal_proper_witness :
    rotation_matrix 1 1 * (rotation_matrix 1 1).transpose = 1 ∧
    (rotation_matrix 1 1).det = 1 :=
  rotation_matrix_orthogonal_proper 1 1 (by simp) (by simp)

/-- C7 counterexample: the claim says superposition resamples only when the
point counts differ. On ref0 and curve0, which both have three points, the
else branch still resamples the reference at uniform arclengths and moves
its middle point from (1,0,0) to (3/2,0,0), so the returned reference
differs from the input reference. -/
theorem superposition_resamples_on_equal_counts :
    superposition_resample ref0 curve0 5
      = some (.ok ([.val [0,0,0], .val [3/2,0,0], .val [3,0,0]], curve0.map PyRet.val)) ∧
    ([.val [0,0,0], .val [3/2,0,0], .val [3,0,0]] : List (PyRet (List ℝ)))
      ≠ ref0.map PyRet.val := by
  constructor
  · rw [superposition_resample, if_neg (by norm_num [ref0, curve0])]
    simp only [set_points_ref0, show curve0.length = 3 from rfl, gen_ref0]
  · norm_num [ref0]

/-- C7 amended: when the two point counts differ, only the curve with fewer
points is resampled, up to the larger count (never downsampled), and the
other curve is returned unchanged; when the counts are equal the reference
is still resampled (see the counterexample). -/
theorem superposition_resample_only_smaller (ref curve : List (List ℝ)) (fuel : Nat)
    (r c : List (PyRet (List ℝ)))
    (h : superposition_resample ref curve fuel = some (.ok (r, c))) :
    (curve.length < ref.length → r = ref.map PyRet.val ∧ c.length = ref.length) ∧
    (ref.length < curve.length → c = curve.map PyRet.val ∧ r.length = curve.length) := by
  rw [superposition_resample] at h
  by_cases hlt : curve.length < ref.length
  · rw [if_pos hlt] at h
    cases hsp : set_points curve with
    | error e => simp [hsp] at h
    | ok cv =>
      simp only [hsp] at h
      cases hg : gen_num_points cv ref.length fuel with
      | none => simp [hg] at h
      | some res =>
        simp only [hg] at h
        cases res with
        | error e => simp at h
        | ok rows =>
          simp only [Option.some.injEq, Except.ok.injEq, Prod.mk.injEq] at h
          refine ⟨fun _ => ⟨h.1.symm, ?_⟩, fun hgt => absurd hgt (by omega)⟩
          rw [← h.2]
          exact gen_num_points_length cv ref.length fuel rows hg
  · rw [if_neg hlt] at h
    cases hsp : set_points ref with
    | error e => simp [hsp] at h
    | ok cv =>
      simp only [hsp] at h
      cases hg : gen_num_points cv curve.length fuel with
      | none => simp [hg] at h
      | some res =>
        simp only [hg] at h
        cases res with
        | error e => simp at h
        | ok rows =>
          simp only [Option.some.injEq, Except.ok.injEq, Prod.mk.injEq] at h
          refine ⟨fun hgt => absurd hgt hlt, fun _ => ⟨h.2.symm, ?_⟩⟩
          rw [← h.1]
          exact gen_num_points_length cv curve.length fuel rows hg

/-- Witness for superposition_resample_only_smaller on the two-point refW
and three-point curveW: the sample is untouched and the upsampled reference
has the larger count. -/
theorem superposition_resample_only_smaller_witness :
    superposition_resample refW curveW 5
      = some (.ok ([.val [0,0,0], .val [1,0,0], .val [2,0,0]], curveW.map PyRet.val)) ∧
    ([.val [0,0,0], .val [1,0,0], .val [2,0,0]] : List (PyRet (List ℝ))).length
      = curveW.length := by
  refine ⟨superpos_refW, ?_⟩
  exact ((superposition_resample_only_smaller refW curveW 5 _ _ superpos_refW).2
    (by norm_num [refW, curveW])).2

/-- C8 counterexample: the claim says scale fails with a typed error exactly
when rmsd is zero. On the all-zero two-point curve the rmsd is zero and
scale still returns an ordinary value: the source has no check and numpy
division emits non-finite values with a warning instead of raising. -/
theorem scale_no_failure_on_degenerate :
    rmsd [[0,0,0],[0,0,0]] = 0 ∧ (scale [[0,0,0],[0,0,0]]).isOk = true := by
  constructor
  · norm_num [rmsd, sumSq, Real.sqrt_zero]
  · rfl

/-- C8 amended: scale never fails (a zero rmsd produces non-finite entries,
not a typed error), and for every curve with nonzero rmsd the scaled curve
has root-mean-square distance one from the origin. -/
theorem rmsd_scale_points_eq_one (c : List (List ℝ)) (h : rmsd c ≠ 0) :
    rmsd (scale_points c) = 1 := by
  have hmap : (scale_points c).map sumSq = (c.map sumSq).map (fun y => y / (rmsd c) ^ 2) := by
    unfold scale_points
    rw [List.map_map, List.map_map]
    congr 1
    funext row
    exact sumSq_div row (rmsd c)
  have hS : 0 ≤ (c.map sumSq).sum / (c.length : ℝ) := by
    apply div_nonneg
    · refine List.sum_nonneg ?_
      intro x hx
      obtain ⟨row, _, rfl⟩ := List.mem_map.mp hx
      exact sumSq_nonneg row
    · positivity
  have hr : 0 ≤ rmsd c := Real.sqrt_nonneg _
  rw [rmsd, scale_points, List.length_map]
  rw [show (c.map (fun row => row.map (fun x => x / rmsd c))).map sumSq
      = (c.map sumSq).map (fun y => y / (rmsd c) ^ 2) from hmap]
  rw [sum_div_aux, div_right_comm, Real.sqrt_div hS, Real.sqrt_sq hr]
  rw [show Real.sqrt ((c.map sumSq).sum / (c.length : ℝ)) = rmsd c from rfl]
  exact div_self h

/-- Witness for rmsd_scale_points_eq_one on the one-point curve [[1,0,0]],
whose rmsd is one. -/
theorem rmsd_scale_points_eq_one_witness :
    rmsd [[1, 0, 0]] ≠ 0 ∧ rmsd (scale_points [[1, 0, 0]]) = 1 := by
  have h1 : rmsd [[1, 0, 0]] = 1 := by norm_num [rmsd, sumSq, Real.sqrt_one]
  exact ⟨by rw [h1]; norm_num, rmsd_scale_points_eq_one _ (by rw [h1]; norm_num)⟩

/-- C9: the spec claims construction fails with InvalidPointCount for fewer
than two points and with DimensionMismatch for non-3-dimensional points.
Evaluating the code: a curve of two 2-dimensional points constructs
successfully (the validation condition joins its clauses with or, so any
nonempty input passes), and a single 3-dimensional point fails with a plain
IndexError from the distance computation, not a typed count error. -/
theorem set_points_no_typed_validation :
    (set_points [[1,2],[3,4]]).isOk = true ∧ set_points [[1,0,0]] = .error .indexError :=
  ⟨rfl, rfl⟩

/-- C10: a k-d tree built from exactly one point answers every nearest
neighbour query with no node (None): traverse_down returns the root, the
root has no parent, so the while loop never runs and closest_node is still
None when returned. -/
theorem nearest_neighbour_single_point_none (p q : List ℝ) (fuel : Nat) :
    nearest_neighbour (KDTree.init [p]) q (fuel + 1) = some none := by
  simp [KDTree.init, buildArena, sortByCoord, nearest_neighbour, traverse_down, searchLoop,
    List.insertionSort]
